import Mathlib

/-!
Shallow embedding of the ELDQM atmospheric-release hazard-assessment engine.

Floating-point numbers of the source are modelled as real numbers, so every
equality proved here is exact and in particular implies the relative
tolerances stated in the specification.  JavaScript truthiness on numbers
(`x || d` falls back to `d` exactly when `x` is `0`) is modelled by `numOr`.
The ambient `Math.random()` draw used for the zone-distance jitter is made an
explicit argument of `calculateDispersion`.  Only the record fields that the
embedded operations read are modelled.
-/

noncomputable section

open Real

/-- JS numeric fallback `x || d`: a value of `0` falls back to the default. -/
def numOr (x d : ℝ) : ℝ := if x = 0 then d else x

/-- JS `String.toLowerCase`, modelled characterwise on the underlying list. -/
def toLowerCase (s : String) : String := ⟨s.data.map Char.toLower⟩

/-- Numeric fields of a chemical database entry read by the embedded operations. -/
structure ChemicalProperties where
  molecularWeight : ℝ
  boilingPoint : ℝ
  vaporPressure : ℝ
  specificGravity : ℝ
  idlh : ℝ
  lel : ℝ
  uel : ℝ
  aegl1 : ℝ
  aegl2 : ℝ
  aegl3 : ℝ
  explosionEnergy : ℝ
  reactivityHazard : ℝ
  blastPotential : ℝ

/-- Database entry for chlorine. -/
def chlorine : ChemicalProperties :=
  { molecularWeight := 70.91, boilingPoint := -34.04, vaporPressure := 5168,
    specificGravity := 1.41, idlh := 10, lel := 0, uel := 0,
    aegl1 := 0.5, aegl2 := 2.0, aegl3 := 20.0,
    explosionEnergy := 0, reactivityHazard := 3, blastPotential := 1 }

/-- Database entry for ammonia. -/
def ammonia : ChemicalProperties :=
  { molecularWeight := 17.03, boilingPoint := -33.34, vaporPressure := 6870,
    specificGravity := 0.682, idlh := 300, lel := 15, uel := 28,
    aegl1 := 30, aegl2 := 160, aegl3 := 1100,
    explosionEnergy := 382, reactivityHazard := 3, blastPotential := 5 }

/-- Database entry for hydrogen sulfide. -/
def hydrogenSulfide : ChemicalProperties :=
  { molecularWeight := 34.08, boilingPoint := -60.33, vaporPressure := 15600,
    specificGravity := 0.92, idlh := 100, lel := 4, uel := 44,
    aegl1 := 0.51, aegl2 := 27, aegl3 := 50,
    explosionEnergy := 207, reactivityHazard := 3, blastPotential := 6 }

/-- Database entry for sulfur dioxide. -/
def sulfurDioxide : ChemicalProperties :=
  { molecularWeight := 64.07, boilingPoint := -10.0, vaporPressure := 2538,
    specificGravity := 1.434, idlh := 100, lel := 0, uel := 0,
    aegl1 := 0.2, aegl2 := 0.75, aegl3 := 30,
    explosionEnergy := 0, reactivityHazard := 2, blastPotential := 2 }

/-- Database entry for methane. -/
def methane : ChemicalProperties :=
  { molecularWeight := 16.04, boilingPoint := -161.5, vaporPressure := 760000,
    specificGravity := 0.42, idlh := 0, lel := 5, uel := 15,
    aegl1 := 0, aegl2 := 0, aegl3 := 0,
    explosionEnergy := 882, reactivityHazard := 0, blastPotential := 8 }

/-- Database entry for carbon monoxide. -/
def carbonMonoxide : ChemicalProperties :=
  { molecularWeight := 28.01, boilingPoint := -191.5, vaporPressure := 760000,
    specificGravity := 0.97, idlh := 1200, lel := 12.5, uel := 74,
    aegl1 := 0, aegl2 := 83, aegl3 := 330,
    explosionEnergy := 283, reactivityHazard := 0, blastPotential := 7 }

/-- Database entry for benzene. -/
def benzene : ChemicalProperties :=
  { molecularWeight := 78.11, boilingPoint := 80.1, vaporPressure := 75,
    specificGravity := 0.88, idlh := 500, lel := 1.2, uel := 7.8,
    aegl1 := 52, aegl2 := 800, aegl3 := 4000,
    explosionEnergy := 3300, reactivityHazard := 2, blastPotential := 6 }

/-- Database entry for ethylene oxide. -/
def ethyleneOxide : ChemicalProperties :=
  { molecularWeight := 44.05, boilingPoint := 10.4, vaporPressure := 1095,
    specificGravity := 0.882, idlh := 800, lel := 3, uel := 100,
    aegl1 := 5, aegl2 := 45, aegl3 := 85,
    explosionEnergy := 1700, reactivityHazard := 4, blastPotential := 9 }

/-- Database entry for hydrogen cyanide. -/
def hydrogenCyanide : ChemicalProperties :=
  { molecularWeight := 27.03, boilingPoint := 25.6, vaporPressure := 630,
    specificGravity := 0.687, idlh := 50, lel := 5.6, uel := 40,
    aegl1 := 1.0, aegl2 := 7.1, aegl3 := 15,
    explosionEnergy := 720, reactivityHazard := 3, blastPotential := 7 }

/-- Database entry for phosgene. -/
def phosgene : ChemicalProperties :=
  { molecularWeight := 98.92, boilingPoint := 8.3, vaporPressure := 1173,
    specificGravity := 1.432, idlh := 2, lel := 0, uel := 0,
    aegl1 := 0, aegl2 := 0.2, aegl3 := 0.59,
    explosionEnergy := 0, reactivityHazard := 3, blastPotential := 3 }

/-- The chemical database: map from lowercase key to properties. -/
def chemicalDatabase (key : String) : Option ChemicalProperties :=
  if key = "chlorine" then some chlorine
  else if key = "ammonia" then some ammonia
  else if key = "hydrogen sulfide" then some hydrogenSulfide
  else if key = "sulfur dioxide" then some sulfurDioxide
  else if key = "methane" then some methane
  else if key = "carbon monoxide" then some carbonMonoxide
  else if key = "benzene" then some benzene
  else if key = "ethylene oxide" then some ethyleneOxide
  else if key = "hydrogen cyanide" then some hydrogenCyanide
  else if key = "phosgene" then some phosgene
  else none

/-- Concentration units handled by the converter. -/
inductive ConcentrationUnit where
  | ppm
  | mgm3
  | percent
deriving DecidableEq

/-- `convertConcentrationUnit` from the source: pivots through mg/m3 using the
molecular weight; identical units or an unknown chemical return the input. -/
def convertConcentrationUnit (value : ℝ) (chemical : String)
    (fromUnit toUnit : ConcentrationUnit) : ℝ :=
  if fromUnit = toUnit then value
  else
    match chemicalDatabase (toLowerCase chemical) with
    | none => value
    | some chemData =>
      let molecularWeight := chemData.molecularWeight
      let intermediateMgM3 : ℝ :=
        match fromUnit with
        | .ppm => value * molecularWeight / 24.45
        | .percent => value * 10000 * molecularWeight / 24.45
        | .mgm3 => value
      match toUnit with
      | .ppm => intermediateMgM3 * 24.45 / molecularWeight
      | .percent => intermediateMgM3 * 24.45 / molecularWeight / 10000
      | .mgm3 => intermediateMgM3

/-- Risk levels, ordered `None < Low < Moderate < High < Extreme`. -/
inductive RiskLevel where
  | None
  | Low
  | Moderate
  | High
  | Extreme
deriving DecidableEq

/-- Position of a risk level on the ordered scale. -/
def RiskLevel.rank : RiskLevel → ℕ
  | .None => 0
  | .Low => 1
  | .Moderate => 2
  | .High => 3
  | .Extreme => 4

/-- `raiseRiskLevel` from the source: one step up the scale, capped at Extreme. -/
def raiseRiskLevel : RiskLevel → RiskLevel
  | .None => .Low
  | .Low => .Moderate
  | .Moderate => .High
  | .High => .Extreme
  | .Extreme => .Extreme

/-- Result record of `calculateMassBalance`. -/
structure MassBalanceResult where
  totalReleased : ℝ
  massReleaseRate : ℝ
  vaporGenerated : ℝ
  vaporGenerationRate : ℝ
  poolFormation : ℝ
  poolEvaporation : ℝ
  poolEvaporationRate : ℝ
  airborneRelease : ℝ
  massBalance : List (String × ℝ)
  timeToEmpty : Option ℝ
  poolDuration : Option ℝ
  poolArea : Option ℝ

/-- `calculateMassBalance` from the source: phase split of a release into
vapor and liquid pool, with pool evaporation over the scenario duration.
An unknown chemical yields the all-zero record. -/
def calculateMassBalance (chemical : String) (releaseRate duration temperature pressure : ℝ)
    (containerVolume initialMass : Option ℝ) : MassBalanceResult :=
  match chemicalDatabase (toLowerCase chemical) with
  | none =>
      { totalReleased := 0, massReleaseRate := 0, vaporGenerated := 0, vaporGenerationRate := 0,
        poolFormation := 0, poolEvaporation := 0, poolEvaporationRate := 0, airborneRelease := 0,
        massBalance := [], timeToEmpty := none, poolDuration := none, poolArea := none }
  | some chemData =>
      let totalReleased := releaseRate * duration
      let tempFactor := Real.exp (0.0555 * (temperature - 20))
      let vaporFraction : ℝ :=
        if chemData.boilingPoint < temperature then 1.0
        else
          let vaporPressureFactor := chemData.vaporPressure / 760
          min 1.0 (max 0.1 (0.2 + 0.8 * vaporPressureFactor * tempFactor))
      let vaporGenerated := totalReleased * vaporFraction
      let vaporGenerationRate := releaseRate * vaporFraction
      let poolFormation : ℝ :=
        if chemData.boilingPoint < temperature then 0 else totalReleased * (1 - vaporFraction)
      let poolEvaporationRate : ℝ :=
        if ¬ chemData.boilingPoint < temperature ∧ 0 < poolFormation then
          let vaporPressureFactor := chemData.vaporPressure / 100
          let molecularWeightFactor := Real.sqrt (18 / chemData.molecularWeight)
          min (0.005 * vaporPressureFactor * molecularWeightFactor * tempFactor *
               Real.sqrt poolFormation)
              (poolFormation / 10)
        else 0
      let poolEvaporation := min poolFormation (poolEvaporationRate * duration)
      let airborneRelease := vaporGenerated + poolEvaporation
      let timeToEmpty : Option ℝ :=
        match containerVolume, initialMass with
        | some cv, some im => if cv ≠ 0 ∧ im ≠ 0 then some (im / releaseRate) else none
        | _, _ => none
      let poolArea : Option ℝ :=
        if 0 < poolFormation then
          some (poolFormation / (chemData.specificGravity * 1000) * 100)
        else none
      let poolDuration : Option ℝ :=
        if 0 < poolFormation then
          if 0 < poolEvaporation then some (poolFormation / poolEvaporationRate) else none
        else none
      { totalReleased := totalReleased, massReleaseRate := releaseRate,
        vaporGenerated := vaporGenerated, vaporGenerationRate := vaporGenerationRate,
        poolFormation := poolFormation, poolEvaporation := poolEvaporation,
        poolEvaporationRate := poolEvaporationRate, airborneRelease := airborneRelease,
        massBalance :=
          [("Initial vapor", vaporGenerated), ("Pool formation", poolFormation),
           ("Pool evaporation", poolEvaporation),
           ("Remaining in pool", poolFormation - poolEvaporation),
           ("Total airborne", airborneRelease)],
        timeToEmpty := timeToEmpty, poolDuration := poolDuration, poolArea := poolArea }

/-- Weather impact record optionally passed into the dispersion model. -/
structure WeatherImpact where
  windFactor : ℝ
  stabilityClass : String
  dispersionMultiplier : ℝ

/-- The model parameter fields read by `calculateDispersion`. -/
structure ModelParameters where
  chemicalType : String
  releaseRate : ℝ
  windSpeed : ℝ
  stabilityClass : String
  temperature : ℝ
  ambientPressure : Option ℝ
  humidity : Option ℝ
  relativeHumidity : Option ℝ
  terrain : Option String
  isIndoor : Bool
  weatherImpact : Option WeatherImpact

/-- One hazard zone: downwind distance (km) and threshold concentration (mg/m3). -/
structure ZoneBand where
  distance : ℝ
  concentration : ℝ

/-- The red/orange/yellow zone result of `calculateDispersion`. -/
structure ZoneData where
  red : ZoneBand
  orange : ZoneBand
  yellow : ZoneBand

/-- JS string fallback `s || d`: the empty string falls back to the default. -/
def strOr (s d : String) : String := if s = "" then d else s

/-- JS conditional on an optional number `x ? f(x) : d`: applies `f` when the
value is present and nonzero, otherwise yields the default. -/
def optNumOr (x : Option ℝ) (f : ℝ → ℝ) (d : ℝ) : ℝ :=
  match x with
  | some v => if v = 0 then d else f v
  | none => d

/-- `getStabilityFactor` from the source dispersion model. -/
def getStabilityFactor (stabilityClass : String) : ℝ :=
  if stabilityClass = "A" then 0.5
  else if stabilityClass = "B" then 0.7
  else if stabilityClass = "C" then 0.9
  else if stabilityClass = "D" then 1.0
  else if stabilityClass = "E" then 1.2
  else if stabilityClass = "F" then 1.5
  else 1.0

/-- Effective stability class inside `calculateDispersion`: the weather
impact value when present, with string fallback to the scenario class. -/
def stabilityClassOf (params : ModelParameters) : String :=
  match params.weatherImpact with
  | some w => strOr w.stabilityClass params.stabilityClass
  | none => params.stabilityClass

/-- The adjusted release rate of `calculateDispersion`: the nominal rate
scaled by the temperature, humidity, pressure, terrain, containment and
external weather factors. -/
def adjustedReleaseRateOf (params : ModelParameters) : ℝ :=
  let temperatureFactor := 1 + (params.temperature - 20) / 100
  let humidityFactor :=
    optNumOr params.relativeHumidity (fun v => 1 - v / 200)
      (optNumOr params.humidity (fun v => 1 - v / 200) 1)
  let pressureFactor := optNumOr params.ambientPressure (fun v => v / 1013.25) 1
  let terrainFactor : ℝ :=
    if params.terrain = some "urban" then 0.8
    else if params.terrain = some "forest" then 0.7
    else if params.terrain = some "water" then 1.2
    else 1.0
  let containmentFactor : ℝ := if params.isIndoor then 0.3 else 1.0
  let weatherImpactFactor :=
    match params.weatherImpact with
    | some w => numOr w.dispersionMultiplier 1.0
    | none => 1.0
  params.releaseRate * temperatureFactor * humidityFactor * pressureFactor *
    terrainFactor * containmentFactor * weatherImpactFactor

/-- Wind factor inside `calculateDispersion`: the weather impact value when
present and nonzero, otherwise the square root of the wind speed halved. -/
def windFactorOf (params : ModelParameters) : ℝ :=
  match params.weatherImpact with
  | some w => numOr w.windFactor (Real.sqrt params.windSpeed / 2)
  | none => Real.sqrt params.windSpeed / 2

/-- Base distance inside `calculateDispersion`. -/
def baseDistanceOf (params : ModelParameters) : ℝ :=
  Real.sqrt (adjustedReleaseRateOf params) * getStabilityFactor (stabilityClassOf params) *
    windFactorOf params

/-- Chemical hazard factor inside `calculateDispersion`: database-derived and
clamped to the band from 0.8 to 2.0, with a fixed fallback per name. -/
def chemicalFactorOf (params : ModelParameters) : ℝ :=
  match chemicalDatabase (toLowerCase params.chemicalType) with
  | some cd =>
      let molecularWeightFactor := Real.sqrt cd.molecularWeight / 10
      let vaporPressureFactor := Real.logb 10 (max 1 cd.vaporPressure) / 3
      max 0.8 (min 2.0 (molecularWeightFactor * vaporPressureFactor))
  | none =>
      if toLowerCase params.chemicalType = "chlorine" then 1.5
      else if toLowerCase params.chemicalType = "ammonia" then 1.3
      else 1.2

/-- `calculateDispersion` from the source.  The ambient `Math.random()` draw
`0.95 + Math.random() * 0.1` is modelled by the explicit `randomFactor`
argument, so a jitter drawn by the source corresponds to a value in the
interval from `0.95` inclusive to `1.05` exclusive. -/
def calculateDispersion (params : ModelParameters) (randomFactor : ℝ) : ZoneData :=
  let chemicalData := chemicalDatabase (toLowerCase params.chemicalType)
  let redDistance := baseDistanceOf params * chemicalFactorOf params * 0.3
  let orangeDistance := baseDistanceOf params * chemicalFactorOf params * 0.6
  let yellowDistance := baseDistanceOf params * chemicalFactorOf params * 1.0
  { red :=
      { distance := max 0.5 (min 5 (redDistance * randomFactor)),
        concentration := match chemicalData with | some cd => numOr cd.aegl3 5 | none => 5 },
    orange :=
      { distance := max 1 (min 8 (orangeDistance * randomFactor)),
        concentration := match chemicalData with | some cd => numOr cd.aegl2 3 | none => 3 },
    yellow :=
      { distance := max 1.5 (min 15 (yellowDistance * randomFactor)),
        concentration := match chemicalData with | some cd => numOr cd.aegl1 1 | none => 1 } }

/-- Red zone concentration of `calculateDispersion`, by definition. -/
theorem dispersion_conc_red (p : ModelParameters) (r : ℝ) :
    (calculateDispersion p r).red.concentration =
      match chemicalDatabase (toLowerCase p.chemicalType) with
      | some cd => numOr cd.aegl3 5
      | none => 5 := rfl

/-- Orange zone concentration of `calculateDispersion`, by definition. -/
theorem dispersion_conc_orange (p : ModelParameters) (r : ℝ) :
    (calculateDispersion p r).orange.concentration =
      match chemicalDatabase (toLowerCase p.chemicalType) with
      | some cd => numOr cd.aegl2 3
      | none => 3 := rfl

/-- Yellow zone concentration of `calculateDispersion`, by definition. -/
theorem dispersion_conc_yellow (p : ModelParameters) (r : ℝ) :
    (calculateDispersion p r).yellow.concentration =
      match chemicalDatabase (toLowerCase p.chemicalType) with
      | some cd => numOr cd.aegl1 1
      | none => 1 := rfl

/-- Red zone distance of `calculateDispersion`, by definition. -/
theorem dispersion_dist_red (p : ModelParameters) (r : ℝ) :
    (calculateDispersion p r).red.distance =
      max 0.5 (min 5 (baseDistanceOf p * chemicalFactorOf p * 0.3 * r)) := rfl

/-- Orange zone distance of `calculateDispersion`, by definition. -/
theorem dispersion_dist_orange (p : ModelParameters) (r : ℝ) :
    (calculateDispersion p r).orange.distance =
      max 1 (min 8 (baseDistanceOf p * chemicalFactorOf p * 0.6 * r)) := rfl

/-- Yellow zone distance of `calculateDispersion`, by definition. -/
theorem dispersion_dist_yellow (p : ModelParameters) (r : ℝ) :
    (calculateDispersion p r).yellow.distance =
      max 1.5 (min 15 (baseDistanceOf p * chemicalFactorOf p * 1.0 * r)) := rfl

/-- Result record of `assessBlastPotential`.  The free-text `comments` field of
the source is not modelled. -/
structure BlastAssessmentResult where
  explosionRisk : RiskLevel
  flammabilityRisk : RiskLevel
  potentialOverpressure : ℝ
  potentialThermalRadiation : ℝ
  safeDistance : ℝ

/-- The flammability-risk cascade inside `assessBlastPotential`. -/
def flammabilityRiskOf (chemData : ChemicalProperties) (concentrationPercent : ℝ) : RiskLevel :=
  if chemData.lel = 0 ∧ chemData.uel = 0 then .None
  else if concentrationPercent < chemData.lel * 0.1 then .Low
  else if concentrationPercent < chemData.lel * 0.5 then .Moderate
  else if concentrationPercent < chemData.lel then .High
  else if 0 < chemData.lel ∧ chemData.lel ≤ concentrationPercent ∧
          concentrationPercent ≤ chemData.uel then .Extreme
  else if chemData.uel < concentrationPercent then .Moderate
  else .None

/-- Explosion level assigned to a flammability level for highly reactive
chemicals inside `assessBlastPotential`. -/
def reactiveExplosionLevel : RiskLevel → RiskLevel
  | .Extreme => .Extreme
  | .High => .High
  | .Moderate => .Moderate
  | _ => .Low

/-- The explosion-risk cascade inside `assessBlastPotential`, before the
temperature and pressure escalation steps. -/
def explosionRiskBaseOf (chemData : ChemicalProperties) (concentrationPercent : ℝ)
    (flammabilityRisk : RiskLevel) : RiskLevel :=
  if chemData.lel = 0 ∧ chemData.uel = 0 then .None
  else if 3 ≤ chemData.reactivityHazard ∨ 7 ≤ chemData.blastPotential then
    reactiveExplosionLevel flammabilityRisk
  else if 0 < chemData.lel ∧ chemData.lel ≤ concentrationPercent ∧
          concentrationPercent ≤ chemData.uel then .High
  else if chemData.lel * 0.5 ≤ concentrationPercent then .Moderate
  else if chemData.lel * 0.1 ≤ concentrationPercent then .Low
  else .None

/-- The temperature and pressure escalation steps applied to a non-None
explosion risk inside `assessBlastPotential`. -/
def escalateExplosionRisk (risk : RiskLevel) (temperature pressureFactor : ℝ) : RiskLevel :=
  if risk = .None then risk
  else
    let r1 := if 50 < temperature ∧ 1.2 < pressureFactor then raiseRiskLevel risk else risk
    if 100 < temperature ∨ 2 < pressureFactor then raiseRiskLevel r1 else r1

/-- `assessBlastPotential` from the source: flammability and explosion risk of
a concentration (mg/m3) at a temperature (Celsius) and pressure (atm). -/
def assessBlastPotential (chemical : String) (concentration temperature pressure : ℝ) :
    BlastAssessmentResult :=
  match chemicalDatabase (toLowerCase chemical) with
  | none =>
      { explosionRisk := .None, flammabilityRisk := .None, potentialOverpressure := 0,
        potentialThermalRadiation := 0, safeDistance := 100 }
  | some chemData =>
      let concentrationPercent :=
        convertConcentrationUnit concentration chemical .mgm3 .percent
      let tempFactor := 1 + (temperature - 20) / 100
      let pressureFactor := pressure / 1.0
      let flammabilityRisk := flammabilityRiskOf chemData concentrationPercent
      let explosionRisk :=
        escalateExplosionRisk (explosionRiskBaseOf chemData concentrationPercent flammabilityRisk)
          temperature pressureFactor
      let energyFactor := (numOr chemData.explosionEnergy 300) / 300
      let potentialOverpressure : ℝ :=
        match explosionRisk with
        | .Extreme => 10 * tempFactor * pressureFactor * energyFactor
        | .High => 5 * tempFactor * pressureFactor * energyFactor
        | .Moderate => 2 * tempFactor * pressureFactor * energyFactor
        | .Low => 0.5 * tempFactor * pressureFactor * energyFactor
        | .None => 0
      let potentialThermalRadiation : ℝ :=
        match flammabilityRisk with
        | .Extreme => 25 * tempFactor * energyFactor
        | .High => 10 * tempFactor * energyFactor
        | .Moderate => 5 * tempFactor * energyFactor
        | .Low => 1 * tempFactor * energyFactor
        | .None => 0
      let safeDistance : ℝ :=
        match explosionRisk with
        | .Extreme => 1000 * Real.sqrt (potentialOverpressure / 10)
        | .High => 500 * Real.sqrt (potentialOverpressure / 5)
        | .Moderate => 250 * Real.sqrt (potentialOverpressure / 2)
        | .Low => 100 * Real.sqrt (potentialOverpressure / 0.5)
        | .None => 100
      { explosionRisk := explosionRisk, flammabilityRisk := flammabilityRisk,
        potentialOverpressure := potentialOverpressure,
        potentialThermalRadiation := potentialThermalRadiation,
        safeDistance := safeDistance }

/-- Result record of `detectLeakage`. -/
structure LeakDetectionResult where
  isLeaking : Bool
  confidence : ℝ
  severityLevel : RiskLevel
  detectionThreshold : ℝ
  exceedsFactor : ℝ
  timeToAction : ℝ
  recommendedActions : List String

/-- `detectLeakage` from the source: compares a measured concentration (mg/m3)
against a detection threshold derived from the background level and AEGL-1. -/
def detectLeakage (chemical : String) (concentration backgroundLevel thresholdMultiplier : ℝ) :
    LeakDetectionResult :=
  match chemicalDatabase (toLowerCase chemical) with
  | none =>
      { isLeaking := false, confidence := 0, severityLevel := .None, detectionThreshold := 0,
        exceedsFactor := 0, timeToAction := 60,
        recommendedActions := ["Verify chemical properties in database"] }
  | some chemData =>
      let detectionThreshold :=
        max (backgroundLevel * thresholdMultiplier)
          (0.01 * convertConcentrationUnit (numOr chemData.aegl1 1) chemical .ppm .mgm3)
      let isLeaking : Bool := decide (detectionThreshold < concentration)
      let exceedsFactor : ℝ := if isLeaking then concentration / detectionThreshold else 0
      let confidence : ℝ :=
        if isLeaking then
          if 10 ≤ exceedsFactor then 0.95
          else if 5 ≤ exceedsFactor then 0.85
          else if 2 ≤ exceedsFactor then 0.7
          else 0.5
        else 0
      let severityLevel : RiskLevel :=
        if isLeaking then
          let aegl1 := convertConcentrationUnit (numOr chemData.aegl1 0) chemical .ppm .mgm3
          let aegl2 := convertConcentrationUnit (numOr chemData.aegl2 0) chemical .ppm .mgm3
          let aegl3 := convertConcentrationUnit (numOr chemData.aegl3 0) chemical .ppm .mgm3
          if 0 < aegl3 ∧ aegl3 ≤ concentration then .Extreme
          else if 0 < aegl2 ∧ aegl2 ≤ concentration then .High
          else if 0 < aegl1 ∧ aegl1 ≤ concentration then .Moderate
          else if detectionThreshold * 2 ≤ concentration then .Low
          else .Low
        else .None
      let timeToAction : ℝ :=
        if isLeaking then
          match severityLevel with
          | .Extreme => 5
          | .High => 15
          | .Moderate => 30
          | .Low => 60
          | .None => 60
        else 60
      let recommendedActions : List String :=
        if isLeaking then
          ["Verify reading with additional monitoring"] ++
          (if severityLevel = .Extreme ∨ severityLevel = .High then
            ["Activate emergency response protocol", "Consider evacuation of affected areas",
             "Use appropriate PPE for response personnel",
             "Identify and isolate the source of the leak"]
          else if severityLevel = .Moderate then
            ["Increase ventilation in the affected area",
             "Notify response team and prepare for potential escalation",
             "Begin source identification procedures"]
          else
            ["Continue monitoring at increased frequency",
             "Prepare response equipment as a precautionary measure"]) ++
          (if 0 < chemData.lel ∧ 0 < chemData.uel then
            ["Eliminate all ignition sources in the vicinity"]
          else [])
        else
          ["Continue routine monitoring",
           "Check monitoring equipment calibration at next maintenance interval"]
      { isLeaking := isLeaking, confidence := confidence, severityLevel := severityLevel,
        detectionThreshold := detectionThreshold, exceedsFactor := exceedsFactor,
        timeToAction := timeToAction, recommendedActions := recommendedActions }

/-- `calculateStabilityClass` from the weather service: Pasquill-Gifford
stability classification from wind speed, cloud cover and the day flag. -/
def calculateStabilityClass (windSpeed cloudCover : ℝ) (isDay : ℕ) : String :=
  let windSpeedMS := if 20 < windSpeed then windSpeed / 3.6 else windSpeed
  if isDay = 1 then
    if cloudCover < 40 then
      if windSpeedMS < 2 then "A"
      else if windSpeedMS < 3 then "A-B"
      else if windSpeedMS < 5 then "B"
      else if windSpeedMS < 6 then "C"
      else "D"
    else if cloudCover < 70 then
      if windSpeedMS < 2 then "B"
      else if windSpeedMS < 3 then "B-C"
      else if windSpeedMS < 5 then "C"
      else if windSpeedMS < 6 then "C-D"
      else "D"
    else
      if windSpeedMS < 2 then "C"
      else if windSpeedMS < 5 then "D"
      else "D"
  else
    if 50 ≤ cloudCover then
      if windSpeedMS < 2.5 then "E" else "D"
    else
      if windSpeedMS < 2.5 then "F"
      else if windSpeedMS < 4 then "E"
      else "D"

/-- Concrete model parameters used to instantiate general theorems. -/
def exampleParams (name : String) : ModelParameters :=
  { chemicalType := name, releaseRate := 50, windSpeed := 4, stabilityClass := "D",
    temperature := 20, ambientPressure := none, humidity := none, relativeHumidity := none,
    terrain := none, isIndoor := false, weatherImpact := none }

/-- C1: for every chemical known to the database and all non-negative release
rate, duration, temperature and pressure, `calculateMassBalance` satisfies
`vaporGenerated + poolFormation = totalReleased`,
`airborneRelease = vaporGenerated + poolEvaporation`, and
`poolEvaporation ≤ poolFormation`.  The equalities are exact over the reals,
hence hold in particular within the 1e-6 relative tolerance of the claim. -/
theorem calculateMassBalance_conservation (chemical : String) (d : ChemicalProperties)
    (hd : chemicalDatabase (toLowerCase chemical) = some d)
    (releaseRate duration temperature pressure : ℝ) (cv im : Option ℝ)
    (hrate : 0 ≤ releaseRate) (hdur : 0 ≤ duration)
    (htemp : 0 ≤ temperature) (hpress : 0 ≤ pressure) :
    (calculateMassBalance chemical releaseRate duration temperature pressure cv im).vaporGenerated +
      (calculateMassBalance chemical releaseRate duration temperature pressure cv im).poolFormation =
      (calculateMassBalance chemical releaseRate duration temperature pressure cv im).totalReleased ∧
    (calculateMassBalance chemical releaseRate duration temperature pressure cv im).airborneRelease =
      (calculateMassBalance chemical releaseRate duration temperature pressure cv im).vaporGenerated +
      (calculateMassBalance chemical releaseRate duration temperature pressure cv im).poolEvaporation ∧
    (calculateMassBalance chemical releaseRate duration temperature pressure cv im).poolEvaporation ≤
      (calculateMassBalance chemical releaseRate duration temperature pressure cv im).poolFormation := by
  refine ⟨?_, ?_, ?_⟩
  · simp only [calculateMassBalance, hd]
    split_ifs <;> ring
  · simp only [calculateMassBalance, hd]
  · simp only [calculateMassBalance, hd]
    exact min_le_left _ _

/-- Witness for C1 at chlorine, rate 10 kg/min, duration 60 min, 25 Celsius. -/
theorem calculateMassBalance_conservation_witness :
    (calculateMassBalance "chlorine" 10 60 25 1 none none).vaporGenerated +
      (calculateMassBalance "chlorine" 10 60 25 1 none none).poolFormation =
      (calculateMassBalance "chlorine" 10 60 25 1 none none).totalReleased ∧
    (calculateMassBalance "chlorine" 10 60 25 1 none none).airborneRelease =
      (calculateMassBalance "chlorine" 10 60 25 1 none none).vaporGenerated +
      (calculateMassBalance "chlorine" 10 60 25 1 none none).poolEvaporation ∧
    (calculateMassBalance "chlorine" 10 60 25 1 none none).poolEvaporation ≤
      (calculateMassBalance "chlorine" 10 60 25 1 none none).poolFormation :=
  calculateMassBalance_conservation "chlorine" chlorine rfl 10 60 25 1 none none
    (by norm_num) (by norm_num) (by norm_num) (by norm_num)

/-- C3: for every database chemical (molecular weight positive) and every
positive value, converting ppm to mg/m3 and back, or percent to mg/m3 and
back, with `convertConcentrationUnit` reproduces the value exactly. -/
theorem convertConcentrationUnit_roundtrip (chemical : String) (d : ChemicalProperties)
    (hd : chemicalDatabase (toLowerCase chemical) = some d)
    (hmw : 0 < d.molecularWeight) (v : ℝ) (hv : 0 < v) :
    convertConcentrationUnit (convertConcentrationUnit v chemical .ppm .mgm3)
      chemical .mgm3 .ppm = v ∧
    convertConcentrationUnit (convertConcentrationUnit v chemical .percent .mgm3)
      chemical .mgm3 .percent = v := by
  have h : d.molecularWeight ≠ 0 := ne_of_gt hmw
  constructor <;>
    (simp only [convertConcentrationUnit, hd]
     rw [if_neg (by decide), if_neg (by decide)]
     field_simp)

/-- Witness for C3 at chlorine with value 1. -/
theorem convertConcentrationUnit_roundtrip_witness :
    convertConcentrationUnit (convertConcentrationUnit 1 "chlorine" .ppm .mgm3)
      "chlorine" .mgm3 .ppm = 1 ∧
    convertConcentrationUnit (convertConcentrationUnit 1 "chlorine" .percent .mgm3)
      "chlorine" .mgm3 .percent = 1 :=
  convertConcentrationUnit_roundtrip "chlorine" chlorine rfl
    (by norm_num [chlorine]) 1 (by norm_num)

/-- C6: chlorine has LEL = UEL = 0, so `assessBlastPotential` reports both
flammability and explosion risk as None for every concentration, temperature
and pressure, despite its reactivity hazard of 3. -/
theorem assessBlastPotential_chlorine_none (c T P : ℝ) :
    (assessBlastPotential "chlorine" c T P).flammabilityRisk = RiskLevel.None ∧
    (assessBlastPotential "chlorine" c T P).explosionRisk = RiskLevel.None := by
  have hd : chemicalDatabase (toLowerCase "chlorine") = some chlorine := rfl
  norm_num [assessBlastPotential, hd, flammabilityRiskOf, explosionRiskBaseOf,
    escalateExplosionRisk, chlorine]

/-- C9: every operation degrades to its documented neutral result on a
chemical name that is not in the database: the mass balance is all-zero, the
unit converter returns its input unchanged, and the blast assessment reports
both risks as None. -/
theorem unknownChemical_neutral (chemical : String)
    (hd : chemicalDatabase (toLowerCase chemical) = none)
    (releaseRate duration temperature pressure v c T P : ℝ) (cv im : Option ℝ)
    (fromUnit toUnit : ConcentrationUnit) :
    (calculateMassBalance chemical releaseRate duration temperature pressure cv im).totalReleased
        = 0 ∧
    (calculateMassBalance chemical releaseRate duration temperature pressure cv im).vaporGenerated
        = 0 ∧
    (calculateMassBalance chemical releaseRate duration temperature pressure cv im).poolFormation
        = 0 ∧
    (calculateMassBalance chemical releaseRate duration temperature pressure cv im).poolEvaporation
        = 0 ∧
    (calculateMassBalance chemical releaseRate duration temperature pressure cv im).airborneRelease
        = 0 ∧
    convertConcentrationUnit v chemical fromUnit toUnit = v ∧
    (assessBlastPotential chemical c T P).explosionRisk = RiskLevel.None ∧
    (assessBlastPotential chemical c T P).flammabilityRisk = RiskLevel.None := by
  refine ⟨?_, ?_, ?_, ?_, ?_, ?_, ?_, ?_⟩ <;>
    simp only [calculateMassBalance, convertConcentrationUnit, assessBlastPotential, hd] <;>
    split_ifs <;> rfl

/-- Witness for C9 at the unknown chemical name xyz. -/
theorem unknownChemical_neutral_witness :
    (calculateMassBalance "xyz" 1 1 20 1 none none).totalReleased = 0 ∧
    (calculateMassBalance "xyz" 1 1 20 1 none none).vaporGenerated = 0 ∧
    (calculateMassBalance "xyz" 1 1 20 1 none none).poolFormation = 0 ∧
    (calculateMassBalance "xyz" 1 1 20 1 none none).poolEvaporation = 0 ∧
    (calculateMassBalance "xyz" 1 1 20 1 none none).airborneRelease = 0 ∧
    convertConcentrationUnit 7 "xyz" .ppm .mgm3 = 7 ∧
    (assessBlastPotential "xyz" 1 20 1).explosionRisk = RiskLevel.None ∧
    (assessBlastPotential "xyz" 1 20 1).flammabilityRisk = RiskLevel.None :=
  unknownChemical_neutral "xyz" rfl 1 1 20 1 7 1 20 1 none none .ppm .mgm3

/-- C10: the default zone concentrations of 5, 3 and 1 mg/m3 are used for any
AEGL value that is zero, not only for unknown chemicals: methane (all AEGLs
zero) yields 5, 3 and 1, while phosgene (only AEGL-1 zero) keeps its red and
orange values 0.59 and 0.2 and gets the yellow default 1. -/
theorem calculateDispersion_defaultConcentrations (p q : ModelParameters) (r s : ℝ)
    (hp : p.chemicalType = "methane") (hq : q.chemicalType = "phosgene") :
    ((calculateDispersion p r).red.concentration = 5 ∧
     (calculateDispersion p r).orange.concentration = 3 ∧
     (calculateDispersion p r).yellow.concentration = 1) ∧
    ((calculateDispersion q s).red.concentration = 0.59 ∧
     (calculateDispersion q s).orange.concentration = 0.2 ∧
     (calculateDispersion q s).yellow.concentration = 1) := by
  have h1 : chemicalDatabase (toLowerCase "methane") = some methane := rfl
  have h2 : chemicalDatabase (toLowerCase "phosgene") = some phosgene := rfl
  refine ⟨⟨?_, ?_, ?_⟩, ⟨?_, ?_, ?_⟩⟩ <;>
    simp only [dispersion_conc_red, dispersion_conc_orange, dispersion_conc_yellow,
      hp, hq, h1, h2] <;>
    norm_num [numOr, methane, phosgene]

/-- Witness for C10 at concrete methane and phosgene scenarios. -/
theorem calculateDispersion_defaultConcentrations_witness :
    ((calculateDispersion (exampleParams "methane") 1).red.concentration = 5 ∧
     (calculateDispersion (exampleParams "methane") 1).orange.concentration = 3 ∧
     (calculateDispersion (exampleParams "methane") 1).yellow.concentration = 1) ∧
    ((calculateDispersion (exampleParams "phosgene") 1).red.concentration = 0.59 ∧
     (calculateDispersion (exampleParams "phosgene") 1).orange.concentration = 0.2 ∧
     (calculateDispersion (exampleParams "phosgene") 1).yellow.concentration = 1) :=
  calculateDispersion_defaultConcentrations (exampleParams "methane")
    (exampleParams "phosgene") 1 1 rfl rfl

/-- C8 (amended): `calculateStabilityClass` is total, but its range has nine
strings: besides the six plain Pasquill-Gifford classes it can return the
hybrid classes A-B, B-C and C-D. -/
theorem calculateStabilityClass_total (windSpeed cloudCover : ℝ) (isDay : ℕ) :
    calculateStabilityClass windSpeed cloudCover isDay ∈
      ["A", "A-B", "B", "B-C", "C", "C-D", "D", "E", "F"] := by
  simp only [calculateStabilityClass]
  split_ifs <;> simp

/-- Counterexample for C8 as stated: at wind speed 2.5 m/s, clear sky and
daytime, the classifier returns the hybrid class A-B, which is not one of the
six plain classes. -/
theorem calculateStabilityClass_hybrid_counterexample :
    calculateStabilityClass 2.5 0 1 = "A-B" ∧
    calculateStabilityClass 2.5 0 1 ∉ (["A", "B", "C", "D", "E", "F"] : List String) := by
  have h : calculateStabilityClass 2.5 0 1 = "A-B" := by
    norm_num [calculateStabilityClass]
  exact ⟨h, by simp [h]⟩

/-- Clamped zone distances are ordered for every real scale factor, positive
or not: the red, orange and yellow clamp bands are nested and the unclamped
distances are ordered multiples of one another. -/
theorem zoneClamp_mono (b c r : ℝ) :
    max 0.5 (min 5 (b * c * 0.3 * r)) ≤ max 1 (min 8 (b * c * 0.6 * r)) ∧
    max 1 (min 8 (b * c * 0.6 * r)) ≤ max 1.5 (min 15 (b * c * 1.0 * r)) := by
  rcases le_or_lt 0 (b * c * r) with hq | hq
  · constructor
    · exact max_le_max (by norm_num) (min_le_min (by norm_num) (by nlinarith))
    · exact max_le_max (by norm_num) (min_le_min (by norm_num) (by nlinarith))
  · constructor
    · refine le_trans (max_le (by norm_num) ?_) (le_max_left 1 _)
      exact le_trans (min_le_right _ _) (by nlinarith)
    · refine le_trans (max_le (by norm_num) ?_) (le_max_left 1.5 _)
      exact le_trans (min_le_right _ _) (by nlinarith)

/-- C2 (amended): for every scenario and every jitter value the zone
distances satisfy red ≤ orange ≤ yellow, and the zone concentrations
strictly decrease red → orange → yellow for every chemical other than
phosgene.  Phosgene violates the concentration part because its zero AEGL-1
falls back to the default 1 mg/m3, which exceeds its AEGL-2 of 0.2. -/
theorem calculateDispersion_zone_monotonicity (p : ModelParameters) (r : ℝ) :
    ((calculateDispersion p r).red.distance ≤ (calculateDispersion p r).orange.distance ∧
     (calculateDispersion p r).orange.distance ≤ (calculateDispersion p r).yellow.distance) ∧
    (toLowerCase p.chemicalType ≠ "phosgene" →
      ((calculateDispersion p r).orange.concentration <
         (calculateDispersion p r).red.concentration ∧
       (calculateDispersion p r).yellow.concentration <
         (calculateDispersion p r).orange.concentration)) := by
  constructor
  · rw [dispersion_dist_red, dispersion_dist_orange, dispersion_dist_yellow]
    exact ⟨(zoneClamp_mono _ _ _).1, (zoneClamp_mono _ _ _).2⟩
  · intro hph
    simp only [dispersion_conc_red, dispersion_conc_orange, dispersion_conc_yellow]
    rcases hdb : chemicalDatabase (toLowerCase p.chemicalType) with _ | d
    · norm_num
    · simp only [chemicalDatabase] at hdb
      split_ifs at hdb
      · injection hdb with hdb; subst hdb; norm_num [numOr, chlorine]
      · injection hdb with hdb; subst hdb; norm_num [numOr, ammonia]
      · injection hdb with hdb; subst hdb; norm_num [numOr, hydrogenSulfide]
      · injection hdb with hdb; subst hdb; norm_num [numOr, sulfurDioxide]
      · injection hdb with hdb; subst hdb; norm_num [numOr, methane]
      · injection hdb with hdb; subst hdb; norm_num [numOr, carbonMonoxide]
      · injection hdb with hdb; subst hdb; norm_num [numOr, benzene]
      · injection hdb with hdb; subst hdb; norm_num [numOr, ethyleneOxide]
      · injection hdb with hdb; subst hdb; norm_num [numOr, hydrogenCyanide]

/-- Witness for C2 (amended) at a concrete non-phosgene scenario. -/
theorem calculateDispersion_zone_monotonicity_witness :
    (((calculateDispersion (exampleParams "chlorine") 1).red.distance ≤
        (calculateDispersion (exampleParams "chlorine") 1).orange.distance ∧
      (calculateDispersion (exampleParams "chlorine") 1).orange.distance ≤
        (calculateDispersion (exampleParams "chlorine") 1).yellow.distance)) ∧
    ((calculateDispersion (exampleParams "chlorine") 1).orange.concentration <
       (calculateDispersion (exampleParams "chlorine") 1).red.concentration ∧
     (calculateDispersion (exampleParams "chlorine") 1).yellow.concentration <
       (calculateDispersion (exampleParams "chlorine") 1).orange.concentration) :=
  ⟨(calculateDispersion_zone_monotonicity (exampleParams "chlorine") 1).1,
   (calculateDispersion_zone_monotonicity (exampleParams "chlorine") 1).2 (by decide)⟩

/-- Counterexample for C2 as stated: in a phosgene scenario the yellow zone
concentration (the default 1 mg/m3, because phosgene has no AEGL-1) is not
below the orange zone concentration 0.2 mg/m3, so the concentrations do not
strictly decrease red → orange → yellow. -/
theorem calculateDispersion_concentration_counterexample :
    (calculateDispersion (exampleParams "phosgene") 1).orange.concentration = 0.2 ∧
    (calculateDispersion (exampleParams "phosgene") 1).yellow.concentration = 1 ∧
    ¬ ((calculateDispersion (exampleParams "phosgene") 1).yellow.concentration <
       (calculateDispersion (exampleParams "phosgene") 1).orange.concentration) := by
  have h2 : chemicalDatabase (toLowerCase (exampleParams "phosgene").chemicalType) =
      some phosgene := rfl
  refine ⟨?_, ?_, ?_⟩ <;>
    simp only [dispersion_conc_orange, dispersion_conc_yellow, h2] <;>
    norm_num [numOr, phosgene]

/-- C4 (amended): the zone concentrations of `calculateDispersion` are
deterministic functions of the model parameters alone: they do not read the
jitter draw.  The zone distances do read the jitter, so the whole result is
reproducible only once the jitter is fixed as an explicit input. -/
theorem calculateDispersion_concentrations_jitter_free (p : ModelParameters) (r1 r2 : ℝ) :
    (calculateDispersion p r1).red.concentration =
      (calculateDispersion p r2).red.concentration ∧
    (calculateDispersion p r1).orange.concentration =
      (calculateDispersion p r2).orange.concentration ∧
    (calculateDispersion p r1).yellow.concentration =
      (calculateDispersion p r2).yellow.concentration :=
  ⟨rfl, rfl, rfl⟩

/-- Parameter set used to exhibit the jitter dependence of zone distances:
an unknown chemical, release rate 100 kg/min at 20 Celsius with neutral
weather impact, so the unclamped red distance is exactly 3.6 km. -/
def jitterParams : ModelParameters :=
  { chemicalType := "xx", releaseRate := 100, windSpeed := 0, stabilityClass := "D",
    temperature := 20, ambientPressure := none, humidity := none, relativeHumidity := none,
    terrain := none, isIndoor := false,
    weatherImpact := some { windFactor := 1, stabilityClass := "D", dispersionMultiplier := 1 } }

/-- Counterexample for C4 as stated: two jitter draws that `Math.random()`
can produce (0.95 and 1) give different red zone distances for the same
model parameters, so the source function is not deterministic in its model
parameters alone. -/
theorem calculateDispersion_jitter_counterexample :
    (calculateDispersion jitterParams 0.95).red.distance = 3.42 ∧
    (calculateDispersion jitterParams 1).red.distance = 3.6 ∧
    (calculateDispersion jitterParams 0.95).red.distance ≠
      (calculateDispersion jitterParams 1).red.distance := by
  have hlow : toLowerCase "xx" = "xx" := rfl
  have hdbx : chemicalDatabase "xx" = none := by simp [chemicalDatabase]
  have harr : adjustedReleaseRateOf jitterParams = 100 := by
    simp [adjustedReleaseRateOf, jitterParams, optNumOr, numOr]
    try norm_num
  have hsq : Real.sqrt 100 = 10 := by
    rw [show (100:ℝ) = 10 ^ 2 by norm_num, Real.sqrt_sq (by norm_num : (0:ℝ) ≤ 10)]
  have hstab : stabilityClassOf jitterParams = "D" := by
    simp [stabilityClassOf, jitterParams, strOr]
  have hwf : windFactorOf jitterParams = 1 := by
    simp [windFactorOf, jitterParams, numOr]
  have hgs : getStabilityFactor "D" = 1.0 := by
    simp [getStabilityFactor]
  have hb : baseDistanceOf jitterParams = 10 := by
    rw [baseDistanceOf, harr, hsq, hstab, hgs, hwf]
    norm_num
  have hc : chemicalFactorOf jitterParams = 1.2 := by
    simp [chemicalFactorOf, jitterParams, hlow, hdbx]
  have hr1 : (calculateDispersion jitterParams 0.95).red.distance = 3.42 := by
    rw [dispersion_dist_red, hb, hc]
    norm_num [min_def, max_def]
  have hr2 : (calculateDispersion jitterParams 1).red.distance = 3.6 := by
    rw [dispersion_dist_red, hb, hc]
    norm_num [min_def, max_def]
  exact ⟨hr1, hr2, by rw [hr1, hr2]; norm_num⟩

/-- Conversion from mg/m3 to percent for a known chemical, in closed form. -/
theorem convert_mgm3_percent (chemical : String) (d : ChemicalProperties)
    (hd : chemicalDatabase (toLowerCase chemical) = some d) (c : ℝ) :
    convertConcentrationUnit c chemical ConcentrationUnit.mgm3 ConcentrationUnit.percent =
      c * 24.45 / d.molecularWeight / 10000 := by
  simp only [convertConcentrationUnit, hd]
  rw [if_neg (by decide)]

/-- The risk fields of `assessBlastPotential` for a known chemical, expressed
through the flammability and explosion cascades. -/
theorem assessBlast_risk_proj (chemical : String) (d : ChemicalProperties)
    (hd : chemicalDatabase (toLowerCase chemical) = some d) (c T P : ℝ) :
    (assessBlastPotential chemical c T P).flammabilityRisk =
      flammabilityRiskOf d
        (convertConcentrationUnit c chemical ConcentrationUnit.mgm3 ConcentrationUnit.percent) ∧
    (assessBlastPotential chemical c T P).explosionRisk =
      escalateExplosionRisk
        (explosionRiskBaseOf d
          (convertConcentrationUnit c chemical ConcentrationUnit.mgm3 ConcentrationUnit.percent)
          (flammabilityRiskOf d
            (convertConcentrationUnit c chemical ConcentrationUnit.mgm3
              ConcentrationUnit.percent)))
        T (P / 1.0) := by
  constructor <;> simp only [assessBlastPotential, hd]

/-- Monotonicity of the flammability cascade in the concentration, for
non-negative concentrations below the upper explosive limit (or for a
non-flammable chemical). -/
theorem flammabilityRiskOf_rank_mono (d : ChemicalProperties) (cp1 cp2 : ℝ)
    (h0 : 0 ≤ cp1) (h12 : cp1 ≤ cp2)
    (hband : cp2 ≤ d.uel ∨ (d.lel = 0 ∧ d.uel = 0)) :
    (flammabilityRiskOf d cp1).rank ≤ (flammabilityRiskOf d cp2).rank := by
  rcases hband with hb | ⟨hl0, hu0⟩
  · unfold flammabilityRiskOf
    split_ifs <;>
      simp_all [RiskLevel.rank, not_and, not_lt, not_le] <;>
      try linarith
  · simp [flammabilityRiskOf, hl0, hu0]

/-- Monotonicity of the level map used for highly reactive chemicals. -/
theorem reactiveExplosionLevel_rank_mono (r1 r2 : RiskLevel) (h : r1.rank ≤ r2.rank) :
    (reactiveExplosionLevel r1).rank ≤ (reactiveExplosionLevel r2).rank := by
  cases r1 <;> cases r2 <;> simp_all [RiskLevel.rank, reactiveExplosionLevel]

/-- Monotonicity of the pre-escalation explosion cascade in the concentration
and the flammability level, under the same band restriction. -/
theorem explosionRiskBaseOf_rank_mono (d : ChemicalProperties) (cp1 cp2 : ℝ)
    (h0 : 0 ≤ cp1) (h12 : cp1 ≤ cp2)
    (hband : cp2 ≤ d.uel ∨ (d.lel = 0 ∧ d.uel = 0))
    (fr1 fr2 : RiskLevel) (hfr : fr1.rank ≤ fr2.rank) :
    (explosionRiskBaseOf d cp1 fr1).rank ≤ (explosionRiskBaseOf d cp2 fr2).rank := by
  rcases hband with hb | ⟨hl0, hu0⟩
  · unfold explosionRiskBaseOf
    by_cases hz : d.lel = 0 ∧ d.uel = 0
    · simp [hz, RiskLevel.rank]
    · by_cases hr : 3 ≤ d.reactivityHazard ∨ 7 ≤ d.blastPotential
      · simp only [if_neg hz, if_pos hr]
        exact reactiveExplosionLevel_rank_mono fr1 fr2 hfr
      · simp only [if_neg hz, if_neg hr]
        split_ifs <;>
          simp_all [RiskLevel.rank, not_and, not_lt, not_le] <;>
          try linarith
  · simp [explosionRiskBaseOf, hl0, hu0]

/-- Monotonicity of the temperature and pressure escalation in the incoming
risk level. -/
theorem escalateExplosionRisk_rank_mono (r1 r2 : RiskLevel) (T pf : ℝ)
    (h : r1.rank ≤ r2.rank) :
    (escalateExplosionRisk r1 T pf).rank ≤ (escalateExplosionRisk r2 T pf).rank := by
  cases r1 <;> cases r2 <;>
    simp_all [escalateExplosionRisk, raiseRiskLevel, RiskLevel.rank] <;>
    split_ifs <;>
    simp_all [raiseRiskLevel, RiskLevel.rank]

/-- C5 (amended): with the chemical, temperature and pressure fixed,
increasing a non-negative concentration never decreases the flammability or
explosion risk of `assessBlastPotential` on the ordered scale, as long as the
larger concentration stays at or below the UEL in percent terms (or the
chemical is non-flammable).  Above the UEL the source deliberately drops the
flammability risk from Extreme to Moderate, so the restriction is necessary. -/
theorem assessBlastPotential_rank_mono (chemical : String) (d : ChemicalProperties)
    (hd : chemicalDatabase (toLowerCase chemical) = some d) (hmw : 0 < d.molecularWeight)
    (T P c1 c2 : ℝ) (hc0 : 0 ≤ c1) (hc : c1 ≤ c2)
    (hband : convertConcentrationUnit c2 chemical ConcentrationUnit.mgm3
        ConcentrationUnit.percent ≤ d.uel ∨ (d.lel = 0 ∧ d.uel = 0)) :
    ((assessBlastPotential chemical c1 T P).flammabilityRisk).rank ≤
      ((assessBlastPotential chemical c2 T P).flammabilityRisk).rank ∧
    ((assessBlastPotential chemical c1 T P).explosionRisk).rank ≤
      ((assessBlastPotential chemical c2 T P).explosionRisk).rank := by
  have hp1 := assessBlast_risk_proj chemical d hd c1 T P
  have hp2 := assessBlast_risk_proj chemical d hd c2 T P
  have hcv1 := convert_mgm3_percent chemical d hd c1
  have hcv2 := convert_mgm3_percent chemical d hd c2
  have h0 : 0 ≤ convertConcentrationUnit c1 chemical ConcentrationUnit.mgm3
      ConcentrationUnit.percent := by
    rw [hcv1]
    have h1 : 0 ≤ c1 * 24.45 := by nlinarith
    have h2 : 0 ≤ c1 * 24.45 / d.molecularWeight := div_nonneg h1 (le_of_lt hmw)
    exact div_nonneg h2 (by norm_num)
  have h12 : convertConcentrationUnit c1 chemical ConcentrationUnit.mgm3
      ConcentrationUnit.percent ≤ convertConcentrationUnit c2 chemical
      ConcentrationUnit.mgm3 ConcentrationUnit.percent := by
    rw [hcv1, hcv2]
    have h1 : c1 * 24.45 ≤ c2 * 24.45 := by nlinarith
    have h2 : c1 * 24.45 / d.molecularWeight ≤ c2 * 24.45 / d.molecularWeight :=
      div_le_div_of_nonneg_right h1 (le_of_lt hmw)
    exact div_le_div_of_nonneg_right h2 (by norm_num)
  have hfl := flammabilityRiskOf_rank_mono d _ _ h0 h12 hband
  refine ⟨?_, ?_⟩
  · rw [hp1.1, hp2.1]
    exact hfl
  · rw [hp1.2, hp2.2]
    exact escalateExplosionRisk_rank_mono _ _ T (P / 1.0)
      (explosionRiskBaseOf_rank_mono d _ _ h0 h12 hband _ _ hfl)

/-- Witness for C5 (amended) at ammonia, concentrations 0 and 100 mg/m3. -/
theorem assessBlastPotential_rank_mono_witness :
    ((assessBlastPotential "ammonia" 0 25 1).flammabilityRisk).rank ≤
      ((assessBlastPotential "ammonia" 100 25 1).flammabilityRisk).rank ∧
    ((assessBlastPotential "ammonia" 0 25 1).explosionRisk).rank ≤
      ((assessBlastPotential "ammonia" 100 25 1).explosionRisk).rank :=
  assessBlastPotential_rank_mono "ammonia" ammonia rfl (by norm_num [ammonia]) 25 1 0 100
    (by norm_num) (by norm_num)
    (Or.inl (by
      rw [convert_mgm3_percent "ammonia" ammonia rfl]
      norm_num [ammonia]))

/-- Counterexample for C5 as stated: for ammonia at 20 Celsius and 1 atm,
raising the concentration from the one matching 20 volume percent (inside
the flammable band 15 to 28 percent) to the one matching 30 percent (above
the UEL) drops both risks from Extreme to Moderate. -/
theorem assessBlastPotential_mono_counterexample :
    (20 * 10000 * 17.03 / 24.45 : ℝ) < 30 * 10000 * 17.03 / 24.45 ∧
    (assessBlastPotential "ammonia" (20 * 10000 * 17.03 / 24.45) 20 1).flammabilityRisk
        = RiskLevel.Extreme ∧
    (assessBlastPotential "ammonia" (30 * 10000 * 17.03 / 24.45) 20 1).flammabilityRisk
        = RiskLevel.Moderate ∧
    (assessBlastPotential "ammonia" (20 * 10000 * 17.03 / 24.45) 20 1).explosionRisk
        = RiskLevel.Extreme ∧
    (assessBlastPotential "ammonia" (30 * 10000 * 17.03 / 24.45) 20 1).explosionRisk
        = RiskLevel.Moderate ∧
    RiskLevel.rank RiskLevel.Moderate < RiskLevel.rank RiskLevel.Extreme := by
  have hd : chemicalDatabase (toLowerCase "ammonia") = some ammonia := rfl
  have hp1 := assessBlast_risk_proj "ammonia" ammonia hd (20 * 10000 * 17.03 / 24.45) 20 1
  have hp2 := assessBlast_risk_proj "ammonia" ammonia hd (30 * 10000 * 17.03 / 24.45) 20 1
  have hcv1 : convertConcentrationUnit (20 * 10000 * 17.03 / 24.45) "ammonia"
      ConcentrationUnit.mgm3 ConcentrationUnit.percent = 20 := by
    rw [convert_mgm3_percent "ammonia" ammonia hd]
    norm_num [ammonia]
  have hcv2 : convertConcentrationUnit (30 * 10000 * 17.03 / 24.45) "ammonia"
      ConcentrationUnit.mgm3 ConcentrationUnit.percent = 30 := by
    rw [convert_mgm3_percent "ammonia" ammonia hd]
    norm_num [ammonia]
  have hf1 : flammabilityRiskOf ammonia 20 = RiskLevel.Extreme := by
    norm_num [flammabilityRiskOf, ammonia]
  have hf2 : flammabilityRiskOf ammonia 30 = RiskLevel.Moderate := by
    norm_num [flammabilityRiskOf, ammonia]
  refine ⟨by norm_num, ?_, ?_, ?_, ?_, by norm_num [RiskLevel.rank]⟩
  · rw [hp1.1, hcv1, hf1]
  · rw [hp2.1, hcv2, hf2]
  · rw [hp1.2, hcv1, hf1]
    norm_num [explosionRiskBaseOf, reactiveExplosionLevel, escalateExplosionRisk, ammonia]
  · rw [hp2.2, hcv2, hf2]
    norm_num [explosionRiskBaseOf, reactiveExplosionLevel, escalateExplosionRisk, ammonia]

/-- C7: leak-detection boundary behaviour for a known chemical with
non-negative AEGL-1: a measured concentration equal to the detection
threshold is not flagged as a leak and has confidence 0; a measurement
strictly between one and two thresholds is flagged with confidence 0.5; and
the confidence is 0 whenever no leak is flagged. -/
theorem detectLeakage_boundary (chemical : String) (d : ChemicalProperties)
    (hd : chemicalDatabase (toLowerCase chemical) = some d)
    (hmw : 0 < d.molecularWeight) (ha : 0 ≤ d.aegl1)
    (backgroundLevel thresholdMultiplier m : ℝ) :
    (m = (detectLeakage chemical m backgroundLevel thresholdMultiplier).detectionThreshold →
      (detectLeakage chemical m backgroundLevel thresholdMultiplier).isLeaking = false ∧
      (detectLeakage chemical m backgroundLevel thresholdMultiplier).confidence = 0) ∧
    ((detectLeakage chemical m backgroundLevel thresholdMultiplier).detectionThreshold < m →
      m < 2 * (detectLeakage chemical m backgroundLevel thresholdMultiplier).detectionThreshold →
      (detectLeakage chemical m backgroundLevel thresholdMultiplier).isLeaking = true ∧
      (detectLeakage chemical m backgroundLevel thresholdMultiplier).confidence = 0.5) ∧
    ((detectLeakage chemical m backgroundLevel thresholdMultiplier).isLeaking = false →
      (detectLeakage chemical m backgroundLevel thresholdMultiplier).confidence = 0) := by
  have hconv : convertConcentrationUnit (numOr d.aegl1 1) chemical ConcentrationUnit.ppm
      ConcentrationUnit.mgm3 = numOr d.aegl1 1 * d.molecularWeight / 24.45 := by
    simp only [convertConcentrationUnit, hd]
    rw [if_neg (by decide)]
  have hpos : 0 < numOr d.aegl1 1 := by
    unfold numOr
    split_ifs with h0
    · norm_num
    · exact lt_of_le_of_ne ha (Ne.symm h0)
  have ht : 0 < max (backgroundLevel * thresholdMultiplier)
      (0.01 * convertConcentrationUnit (numOr d.aegl1 1) chemical ConcentrationUnit.ppm
        ConcentrationUnit.mgm3) := by
    refine lt_of_lt_of_le ?_ (le_max_right _ _)
    rw [hconv]
    exact mul_pos (by norm_num) (div_pos (mul_pos hpos hmw) (by norm_num))
  refine ⟨?_, ?_, ?_⟩
  · intro h1
    simp only [detectLeakage, hd] at h1 ⊢
    subst h1
    refine ⟨decide_eq_false (lt_irrefl _), ?_⟩
    rw [decide_eq_false (lt_irrefl _)]
    simp
  · intro h2 h3
    simp only [detectLeakage, hd] at h2 h3 ⊢
    have hdiv : m / max (backgroundLevel * thresholdMultiplier)
        (0.01 * convertConcentrationUnit (numOr d.aegl1 1) chemical ConcentrationUnit.ppm
          ConcentrationUnit.mgm3) < 2 := by
      rw [div_lt_iff₀ ht]
      linarith
    refine ⟨decide_eq_true h2, ?_⟩
    rw [decide_eq_true h2]
    simp only [if_true]
    rw [if_neg (by linarith), if_neg (by linarith), if_neg (by linarith)]
  · intro hL
    simp only [detectLeakage, hd] at hL ⊢
    rw [hL]
    simp

/-- Witness for C7 at chlorine with background 0.001 mg/m3 and multiplier 5,
measured exactly at the detection threshold. -/
theorem detectLeakage_boundary_witness :
    (detectLeakage "chlorine"
        (max (0.001 * 5)
          (0.01 * convertConcentrationUnit (numOr chlorine.aegl1 1) "chlorine"
            ConcentrationUnit.ppm ConcentrationUnit.mgm3)) 0.001 5).isLeaking = false ∧
    (detectLeakage "chlorine"
        (max (0.001 * 5)
          (0.01 * convertConcentrationUnit (numOr chlorine.aegl1 1) "chlorine"
            ConcentrationUnit.ppm ConcentrationUnit.mgm3)) 0.001 5).confidence = 0 :=
  (detectLeakage_boundary "chlorine" chlorine rfl (by norm_num [chlorine])
      (by norm_num [chlorine]) 0.001 5 _).1
    (by simp only [detectLeakage,
      show chemicalDatabase (toLowerCase "chlorine") = some chlorine from rfl])
